import Mathlib

/-!
Shallow embedding of the smartSugu order / promotion / delivery workflow.

The definitions below are direct translations of the JavaScript services and
Mongoose model methods:
  * `src/services/order.service.js` (createOrder, updateOrderStatus, cancelOrder),
  * `src/services/livreur.service.js` (acceptDelivery),
  * the Promotion model methods (isValid, applyPromotion),
  * the promotion service helper findBestPromotion,
  * `src/models/delivery.model.js` (calculateDistance).

Mongo document stores are modelled as lists of records keyed by numeric ids;
`findById` becomes `List.find?`, `findByIdAndUpdate` with an `$inc` update
becomes a pointwise map, and thrown `ApiError`s become an `Except` error
value carrying the HTTP error kind.  JavaScript numbers used for money are
modelled as rationals, dates as integers (epoch) together with the calendar
fields that `applyPromotion` reads.
-/

namespace SmartSugu

/-! ### Data model -/

/-- One order line item: `{ productId, quantity, price }`. -/
structure LineItem where
  productId : Nat
  quantity : Nat
  price : ℚ
deriving DecidableEq

/-- A product document (the fields read by the order workflow). -/
structure Product where
  id : Nat
  stock : ℤ
deriving DecidableEq

/-- The error kinds thrown by the services (`ApiError` with an HTTP status).
`badRequest` is the InvalidRequest kind of the spec, `conflict` its Conflict. -/
inductive ApiErr where
  | notFound
  | badRequest
  | conflict
deriving DecidableEq

/-- `discountType` enum of the promotion schema. -/
inductive DiscountType where
  | percentage
  | fixed
deriving DecidableEq

/-- A promotion document (fields used by the verified methods).
Stats maps (Mongoose `Map` of numbers) are association lists. -/
structure Promotion where
  id : Nat
  isActive : Bool
  discountType : DiscountType
  discountValue : ℚ
  expirationDate : Option ℤ
  usageLimit : Nat
  usedCount : Nat
  redemptionHistory : List (Nat × Nat)
  statsWeekly : List (String × Nat)
  statsMonthly : List (String × Nat)
  statsYearly : List (String × Nat)
  applicableProducts : List Nat
deriving DecidableEq

/-- `promotionSchema.methods.isValid`:
`this.isActive && this.usageLimit > this.usedCount && (!this.expirationDate || now <= this.expirationDate)`. -/
def Promotion.isValid (p : Promotion) (now : ℤ) : Bool :=
  p.isActive && decide (p.usageLimit > p.usedCount) &&
    (match p.expirationDate with
     | none => true
     | some d => decide (now ≤ d))

/-- A JavaScript `Date` as read by `applyPromotion`: the epoch value used by
comparisons together with `getFullYear`, `getMonth` (0-based) and `getDate`. -/
structure JsDate where
  epoch : ℤ
  year : ℤ
  month : Nat
  day : Nat
deriving DecidableEq

/-- Mongoose `Map.get(k)` followed by `|| 0`. -/
def mapGet (m : List (String × Nat)) (k : String) : Nat :=
  match m with
  | [] => 0
  | e :: rest => if e.1 = k then e.2 else mapGet rest k

/-- Mongoose `Map.set(k, v)`: replace the first binding of `k`, or append it. -/
def mapSet (m : List (String × Nat)) (k : String) (v : Nat) : List (String × Nat) :=
  match m with
  | [] => [(k, v)]
  | e :: rest => if e.1 = k then (k, v) :: rest else e :: mapSet rest k v

/-- The weekly stats key built by `applyPromotion`:
`now.getFullYear() + "-" + Math.ceil(now.getDate() / 7)`. -/
def weekKey (d : JsDate) : String :=
  toString d.year ++ "-" ++ toString ((d.day + 6) / 7)

/-- The monthly stats key: `now.getFullYear() + "-" + (now.getMonth() + 1)`. -/
def monthKey (d : JsDate) : String :=
  toString d.year ++ "-" ++ toString (d.month + 1)

/-- The yearly stats key: `now.getFullYear()` as a string. -/
def yearKey (d : JsDate) : String :=
  toString d.year

/-- `promotionSchema.methods.applyPromotion(userId, orderId)`: throws when the
promotion is not valid, otherwise increments `usedCount`, appends a redemption
record and bumps the three period counters. -/
def Promotion.applyPromotion (p : Promotion) (d : JsDate) (userId orderId : Nat) :
    Except String Promotion :=
  if p.isValid d.epoch = false then
    .error "Promotion not valid or expired."
  else
    .ok { p with
      usedCount := p.usedCount + 1
      redemptionHistory := p.redemptionHistory ++ [(userId, orderId)]
      statsWeekly := mapSet p.statsWeekly (weekKey d) (mapGet p.statsWeekly (weekKey d) + 1)
      statsMonthly := mapSet p.statsMonthly (monthKey d) (mapGet p.statsMonthly (monthKey d) + 1)
      statsYearly := mapSet p.statsYearly (yearKey d) (mapGet p.statsYearly (yearKey d) + 1) }

/-! ### Order service -/

/-- An order document. The status is kept as a string exactly as the service
manipulates it. -/
structure Order where
  id : Nat
  client : Nat
  products : List LineItem
  promotion : Option Nat
  totalPrice : ℚ
  status : String
deriving DecidableEq

/-- The request body accepted by `createOrder` (client-declared total price,
line items, optional promotion id). -/
structure OrderBody where
  products : List LineItem
  promotion : Option Nat
  totalPrice : ℚ
deriving DecidableEq

/-- The persistent state touched by the order service. -/
structure Db where
  products : List Product
  promotions : List Promotion
  orders : List Order
deriving DecidableEq

/-- `Product.findByIdAndUpdate(pid, { $inc: { stock: delta } })`: a no-op when
no product has that id. -/
def incStock (ps : List Product) (pid : Nat) (delta : ℤ) : List Product :=
  ps.map (fun p => if p.id = pid then { p with stock := p.stock + delta } else p)

/-- The availability loop at the top of `createOrder`: for each item, missing
product throws NotFound, `product.stock < item.quantity` throws BAD_REQUEST. -/
def checkStock (ps : List Product) : List LineItem → Except ApiErr Unit
  | [] => .ok ()
  | it :: rest =>
    match ps.find? (fun p => p.id == it.productId) with
    | none => .error .notFound
    | some p =>
      if p.stock < (it.quantity : ℤ) then .error .badRequest
      else checkStock ps rest

/-- The promotion block of `createOrder`: looks the promotion up, rejects an
invalid one, and subtracts a percentage discount from the running
`orderBody.totalPrice` (whatever the discount type). -/
def applyPromoToTotal (promos : List Promotion) (body : OrderBody) (now : ℤ) :
    Except ApiErr ℚ :=
  match body.promotion with
  | none => .ok body.totalPrice
  | some pid =>
    match promos.find? (fun p => p.id == pid) with
    | none => .error .notFound
    | some promo =>
      if promo.isValid now = false then .error .badRequest
      else .ok (body.totalPrice - body.totalPrice * promo.discountValue / 100)

/-- `createOrder(clientId, orderBody)`.  Note that the discounted running total
produced by the promotion block is immediately overwritten by the recomputed
sum of `quantity * price`, exactly as in the source. -/
def createOrder (db : Db) (clientId : Nat) (body : OrderBody) (now : ℤ) :
    Except ApiErr (Order × Db) :=
  match checkStock db.products body.products with
  | .error e => .error e
  | .ok _ =>
    match applyPromoToTotal db.promotions body now with
    | .error e => .error e
    | .ok _discountedTotal =>
      let totalPrice := body.products.foldl (fun acc it => acc + (it.quantity : ℚ) * it.price) 0
      let order : Order :=
        { id := db.orders.length
          client := clientId
          products := body.products
          promotion := body.promotion
          totalPrice := totalPrice
          status := "pending" }
      let newProducts :=
        body.products.foldl (fun ps it => incStock ps it.productId (-(it.quantity : ℤ))) db.products
      .ok (order, { db with products := newProducts, orders := db.orders ++ [order] })

/-- The five legal order status strings. -/
def validOrderStatuses : List String :=
  ["pending", "accepted", "in_progress", "completed", "cancelled"]

/-- `updateOrderStatus(orderId, newStatus)`: NotFound for an unknown order,
BAD_REQUEST for a status outside the enum, otherwise writes the new status
without looking at the current one. -/
def updateOrderStatus (db : Db) (orderId : Nat) (newStatus : String) :
    Except ApiErr (Order × Db) :=
  match db.orders.find? (fun o => o.id == orderId) with
  | none => .error .notFound
  | some order =>
    if validOrderStatuses.contains newStatus = false then .error .badRequest
    else
      let order2 := { order with status := newStatus }
      .ok (order2, { db with orders := db.orders.map (fun o => if o.id = orderId then order2 else o) })

/-- `cancelOrder(orderId)`: rejects terminal orders, otherwise sets the status
to cancelled and restores every line item quantity into the product stock. -/
def cancelOrder (db : Db) (orderId : Nat) : Except ApiErr (Order × Db) :=
  match db.orders.find? (fun o => o.id == orderId) with
  | none => .error .notFound
  | some order =>
    if order.status = "completed" ∨ order.status = "cancelled" then .error .badRequest
    else
      let order2 := { order with status := "cancelled" }
      let newProducts :=
        order.products.foldl (fun ps it => incStock ps it.productId (it.quantity : ℤ)) db.products
      .ok (order2, { db with
        products := newProducts
        orders := db.orders.map (fun o => if o.id = orderId then order2 else o) })

/-! ### Livreur service -/

/-- A courier document (the fields touched by acceptDelivery). -/
structure Livreur where
  id : Nat
  deliveriesAssigned : List Nat
deriving DecidableEq

/-- A delivery document (the fields touched by acceptDelivery). -/
structure Delivery where
  id : Nat
  status : String
  livreur : Option Nat
deriving DecidableEq

/-- The persistent state touched by the livreur service. -/
structure DeliveryDb where
  livreurs : List Livreur
  deliveries : List Delivery
deriving DecidableEq

/-- `acceptDelivery(livreurId, deliveryId)`: NotFound when either document is
missing, Conflict when the delivery is no longer pending, otherwise moves the
delivery to in_progress, assigns the courier and appends the delivery id to
the courier's assigned list, saving both documents. -/
def acceptDelivery (db : DeliveryDb) (livreurId deliveryId : Nat) :
    Except ApiErr (Delivery × DeliveryDb) :=
  match db.livreurs.find? (fun l => l.id == livreurId),
        db.deliveries.find? (fun d => d.id == deliveryId) with
  | some livreur, some delivery =>
    if delivery.status ≠ "pending" then .error .conflict
    else
      let delivery2 := { delivery with status := "in_progress", livreur := some livreurId }
      let livreur2 := { livreur with deliveriesAssigned := livreur.deliveriesAssigned ++ [deliveryId] }
      .ok (delivery2,
        { livreurs := db.livreurs.map (fun l => if l.id = livreurId then livreur2 else l)
          deliveries := db.deliveries.map (fun d => if d.id = deliveryId then delivery2 else d) })
  | _, _ => .error .notFound

/-! ### findBestPromotion (promotion service) -/

/-- The subtotal reduce used inside `findBestPromotion`:
`products.reduce((sum, p) => sum + p.price * p.quantity, 0)`. -/
def orderSubtotal (products : List LineItem) : ℚ :=
  products.foldl (fun sum p => sum + p.price * (p.quantity : ℚ)) 0

/-- The per-promotion discount computed inside the loop of
`findBestPromotion`: percentage of the subtotal, the raw value for a fixed
discount, and 0 otherwise. -/
def discountOf (promo : Promotion) (products : List LineItem) : ℚ :=
  if promo.discountType = DiscountType.percentage then
    orderSubtotal products * promo.discountValue / 100
  else if promo.discountType = DiscountType.fixed then
    promo.discountValue
  else 0

/-- The Mongo query of `findBestPromotion`:
`Promotion.find({ isActive: true, applicableProducts: { $in: ids } })`. -/
def applicablePromotions (promos : List Promotion) (products : List LineItem) :
    List Promotion :=
  promos.filter (fun promo =>
    promo.isActive && promo.applicableProducts.any (fun pid =>
      products.any (fun it => it.productId == pid)))

/-- The selection loop of `findBestPromotion`, carrying `bestPromotion`
(initially null) and `maxDiscount` (initially 0); a candidate replaces the
current best only when its discount is strictly greater. -/
def findBestLoop (products : List LineItem) :
    List Promotion → Option Promotion → ℚ → Option Promotion
  | [], best, _ => best
  | promo :: rest, best, maxDiscount =>
    if maxDiscount < discountOf promo products then
      findBestLoop products rest (some promo) (discountOf promo products)
    else findBestLoop products rest best maxDiscount

/-- `findBestPromotion(userId, products)` (the user id plays no role in the
computation). -/
def findBestPromotion (promos : List Promotion) (products : List LineItem) :
    Option Promotion :=
  findBestLoop products (applicablePromotions promos products) none 0

/-! ### Delivery distance (delivery.model.js) -/

/-- A coordinate pair `{ latitude, longitude }`. -/
structure Coords where
  latitude : ℝ
  longitude : ℝ

/-- `toRad(value) = value * Math.PI / 180`. -/
noncomputable def toRad (value : ℝ) : ℝ := value * Real.pi / 180

/-- JavaScript `Math.atan2` on real arguments (the branches for the axes and
quadrants; NaN inputs are outside the real model). -/
noncomputable def atan2 (y x : ℝ) : ℝ :=
  if 0 < x then Real.arctan (y / x)
  else if x < 0 ∧ 0 ≤ y then Real.arctan (y / x) + Real.pi
  else if x < 0 ∧ y < 0 then Real.arctan (y / x) - Real.pi
  else if x = 0 ∧ 0 < y then Real.pi / 2
  else if x = 0 ∧ y < 0 then -(Real.pi / 2)
  else 0

/-- `deliverySchema.methods.calculateDistance(startCoords, endCoords)`. -/
noncomputable def calculateDistance (startCoords endCoords : Coords) : ℝ :=
  let R : ℝ := 6371
  let dLat := toRad (endCoords.latitude - startCoords.latitude)
  let dLon := toRad (endCoords.longitude - startCoords.longitude)
  let a :=
    Real.sin (dLat / 2) * Real.sin (dLat / 2) +
      Real.cos (toRad startCoords.latitude) * Real.cos (toRad endCoords.latitude) *
        Real.sin (dLon / 2) * Real.sin (dLon / 2)
  let c := 2 * atan2 (Real.sqrt a) (Real.sqrt (1 - a))
  R * c

/-- Modelled from the spec: the haversine formula as displayed in the spec,
`a = sin²(Δlat/2) + cos(lat1)·cos(lat2)·sin²(Δlon/2)`,
`c = 2·atan2(√a, √(1−a))`, `distance = 6371·c`, all angles in radians. -/
noncomputable def haversineSpec (p q : Coords) : ℝ :=
  let lat1 := toRad p.latitude
  let lat2 := toRad q.latitude
  let dLat := toRad (q.latitude - p.latitude)
  let dLon := toRad (q.longitude - p.longitude)
  let a := Real.sin (dLat / 2) ^ 2 + Real.cos lat1 * Real.cos lat2 * Real.sin (dLon / 2) ^ 2
  let c := 2 * atan2 (Real.sqrt a) (Real.sqrt (1 - a))
  6371 * c

/-! ### Concrete fixtures used by counterexamples and witnesses -/

/-- A valid 50 percent promotion. -/
def pctPromo : Promotion :=
  { id := 7, isActive := true, discountType := .percentage, discountValue := 50,
    expirationDate := none, usageLimit := 1, usedCount := 0, redemptionHistory := [],
    statsWeekly := [], statsMonthly := [], statsYearly := [], applicableProducts := [1] }

/-- Store for the C1 run: one product with stock 5 and the promotion above. -/
def c1Db : Db :=
  { products := [{ id := 1, stock := 5 }], promotions := [pctPromo], orders := [] }

/-- C1 request: two units at price 10 with the 50 percent promotion attached. -/
def c1Body : OrderBody :=
  { products := [{ productId := 1, quantity := 2, price := 10 }],
    promotion := some 7, totalPrice := 20 }

/-- Store for the C2 counterexample: product 2 exists with stock 0, product 1
does not exist. -/
def c2Db : Db :=
  { products := [{ id := 2, stock := 0 }], promotions := [], orders := [] }

/-- C2 counterexample request: the first line item references the missing
product 1, the second requests one unit of product 2 whose stock is 0. -/
def c2Body : OrderBody :=
  { products := [{ productId := 1, quantity := 1, price := 1 },
                 { productId := 2, quantity := 1, price := 1 }],
    promotion := none, totalPrice := 0 }

/-- A completed order, used to probe updateOrderStatus on a terminal order. -/
def c7Order : Order :=
  { id := 1, client := 1, products := [], promotion := none, totalPrice := 0,
    status := "completed" }

/-- Store holding only the completed order. -/
def c7Db : Db :=
  { products := [], promotions := [], orders := [c7Order] }

/-- A valid promotion with empty stats, used to run applyPromotion once. -/
def c8Promo : Promotion :=
  { id := 1, isActive := true, discountType := .fixed, discountValue := 5,
    expirationDate := none, usageLimit := 1, usedCount := 0, redemptionHistory := [],
    statsWeekly := [], statsMonthly := [], statsYearly := [], applicableProducts := [] }

/-- October 11, 2026 (month is the 0-based getMonth value). -/
def c8Date : JsDate := { epoch := 0, year := 2026, month := 9, day := 11 }

/-- An active percentage promotion applicable to product 1, for C9. -/
def c9PctPromo : Promotion :=
  { id := 1, isActive := true, discountType := .percentage, discountValue := 10,
    expirationDate := none, usageLimit := 1, usedCount := 0, redemptionHistory := [],
    statsWeekly := [], statsMonthly := [], statsYearly := [], applicableProducts := [1] }

/-- A line item for product 1 with price 0, making every percentage discount 0. -/
def c9FreeItem : LineItem := { productId := 1, quantity := 1, price := 0 }

/-- An active fixed promotion applicable to product 1, for the C9 witness. -/
def c9FixedPromo : Promotion :=
  { id := 2, isActive := true, discountType := .fixed, discountValue := 5,
    expirationDate := none, usageLimit := 1, usedCount := 0, redemptionHistory := [],
    statsWeekly := [], statsMonthly := [], statsYearly := [], applicableProducts := [1] }

/-- A line item for product 1 at price 3, for the C9 witness. -/
def c9PaidItem : LineItem := { productId := 1, quantity := 1, price := 3 }

/-- A pending order of two units of product 1, for the C3 witness. -/
def c3Order : Order :=
  { id := 4, client := 1,
    products := [{ productId := 1, quantity := 2, price := 10 }],
    promotion := none, totalPrice := 20, status := "pending" }

/-- Store for the C3 witness: product 1 at stock 3 and the pending order. -/
def c3Db : Db :=
  { products := [{ id := 1, stock := 3 }], promotions := [], orders := [c3Order] }

/-- A courier with no assigned deliveries, for the C5 witness. -/
def c5Livreur : Livreur := { id := 9, deliveriesAssigned := [] }

/-- A pending delivery, for the C5 witness. -/
def c5Delivery : Delivery := { id := 2, status := "pending", livreur := none }

/-- Store for the C5 witness. -/
def c5Db : DeliveryDb := { livreurs := [c5Livreur], deliveries := [c5Delivery] }

/-- Paris, as used by the spec test vector. -/
noncomputable def parisCoords : Coords := { latitude := 48.8566, longitude := 2.3522 }

/-- Lyon, as used by the spec test vector. -/
noncomputable def lyonCoords : Coords := { latitude := 45.7640, longitude := 4.8357 }

/-- The haversine intermediate `a` of `calculateDistance parisCoords lyonCoords`. -/
noncomputable def aParisLyon : ℝ :=
  Real.sin (toRad (45.7640 - 48.8566) / 2) * Real.sin (toRad (45.7640 - 48.8566) / 2) +
    Real.cos (toRad 48.8566) * Real.cos (toRad 45.7640) *
      Real.sin (toRad (4.8357 - 2.3522) / 2) * Real.sin (toRad (4.8357 - 2.3522) / 2)

/-! ### Claim C4: validity predicate of a promotion -/

/-- Claim C4: `Promotion.isValid` returns true if and only if the promotion is
active, `usedCount` is strictly below `usageLimit`, and either no expiration
date is set or the current time is at or before it. -/
theorem c4_isValid_iff (p : Promotion) (now : ℤ) :
    p.isValid now = true ↔
      (p.isActive = true ∧ p.usedCount < p.usageLimit ∧
        (p.expirationDate = none ∨ ∃ d, p.expirationDate = some d ∧ now ≤ d)) := by
  cases hd : p.expirationDate <;>
    simp [Promotion.isValid, hd, and_assoc]

/-! ### Claim C1: total price of a created order -/

/-- Claim C1 (code bug): on the C1 fixture (one line item of 2 units at price
10, with a valid 50 percent promotion), `createOrder` persists a totalPrice of
20, although the sum minus the promotion discount claimed by the spec is 10:
the discounted running total is overwritten by the plain quantity-times-price
sum, so the discount never reaches the persisted order. -/
theorem c1_discount_discarded :
    (createOrder c1Db 3 c1Body 0).toOption.map (fun r => r.1.totalPrice) = some 20 ∧
      (20 : ℚ) - 20 * 50 / 100 = 10 ∧ (20 : ℚ) ≠ 10 := by
  refine ⟨?_, by norm_num, by norm_num⟩
  norm_num [createOrder, c1Db, c1Body, pctPromo, checkStock, applyPromoToTotal,
    Promotion.isValid, Except.toOption]

/-! ### Claim C2: insufficient stock rejects the order before any mutation -/

/-- Claim C2 counterexample: the C2 request contains a line item (product 2,
quantity 1) whose quantity exceeds the current stock (0), yet `createOrder`
fails with NotFound, not InvalidRequest, because an earlier line item
references a missing product and the loop checks items in order. -/
theorem c2_counterexample :
    createOrder c2Db 1 c2Body 0 = .error .notFound ∧
      ApiErr.notFound ≠ ApiErr.badRequest ∧
      (∃ it ∈ c2Body.products, ∀ p ∈ c2Db.products,
        p.id = it.productId → p.stock < (it.quantity : ℤ)) := by
  refine ⟨rfl, by decide, by decide⟩

/-- The availability loop fails with BAD_REQUEST when every referenced product
exists and some line item requests more than the available stock. -/
theorem checkStock_insufficient (ps : List Product) :
    ∀ items : List LineItem,
      (∀ it ∈ items, (ps.find? (fun p => p.id == it.productId)).isSome) →
      (∃ it ∈ items, ∀ p, ps.find? (fun p2 => p2.id == it.productId) = some p →
        p.stock < (it.quantity : ℤ)) →
      checkStock ps items = .error .badRequest := by
  intro items
  induction items with
  | nil => rintro _ ⟨_, h, _⟩; cases h
  | cons it rest ih =>
    intro hall hbad
    obtain ⟨p, hp⟩ := Option.isSome_iff_exists.mp (hall it (by simp))
    simp only [checkStock, hp]
    by_cases hlt : p.stock < (it.quantity : ℤ)
    · simp [hlt]
    · rw [if_neg hlt]
      apply ih
      · intro x hx
        exact hall x (List.mem_cons_of_mem _ hx)
      · obtain ⟨it0, hit0, hstock⟩ := hbad
        rcases List.mem_cons.mp hit0 with h | h
        · subst h; exact absurd (hstock p hp) hlt
        · exact ⟨it0, h, hstock⟩

/-- Claim C2 (amended): when every line item references an existing product
and some line item requests more than the available stock, `createOrder`
fails with InvalidRequest; nothing is persisted and no stock changes, since
the failure occurs before any mutation. -/
theorem c2_insufficient_stock (db : Db) (clientId : Nat) (body : OrderBody) (now : ℤ)
    (hall : ∀ it ∈ body.products, (db.products.find? (fun p => p.id == it.productId)).isSome)
    (hbad : ∃ it ∈ body.products, ∀ p,
      db.products.find? (fun p2 => p2.id == it.productId) = some p →
        p.stock < (it.quantity : ℤ)) :
    createOrder db clientId body now = .error .badRequest := by
  unfold createOrder
  rw [checkStock_insufficient db.products body.products hall hbad]

/-- Witness for C2: a request of one unit of a product with stock 0 is
rejected with InvalidRequest. -/
theorem c2_witness :
    createOrder { products := [{ id := 1, stock := 0 }], promotions := [], orders := [] } 1
        { products := [{ productId := 1, quantity := 1, price := 1 }],
          promotion := none, totalPrice := 0 } 0 = .error .badRequest :=
  c2_insufficient_stock _ 1 _ 0 (by decide) (by decide)

/-! ### Claim C7: terminal statuses and updateOrderStatus -/

/-- Claim C7 counterexample: `updateOrderStatus` moves the completed order of
the C7 fixture back to pending, so completed is not terminal under
updateOrderStatus: the service validates only the new status value and never
inspects the current one. -/
theorem c7_counterexample :
    c7Order.status = "completed" ∧
      (updateOrderStatus c7Db 1 "pending").toOption.map (fun r => r.1.status) =
        some "pending" := by
  exact ⟨rfl, by decide⟩

/-- Claim C7 (amended): `updateOrderStatus` rejects only invalid status
values; for any existing order, whatever its current status (including
completed and cancelled), it overwrites the status with any of the five valid
values.  Terminality of completed and cancelled is enforced by `cancelOrder`
alone, not by updateOrderStatus. -/
theorem c7_updateStatus_unrestricted (db : Db) (orderId : Nat) (newStatus : String)
    (order : Order) (h : db.orders.find? (fun o => o.id == orderId) = some order) :
    (validOrderStatuses.contains newStatus = true →
      updateOrderStatus db orderId newStatus =
        .ok ({ order with status := newStatus },
          { db with orders := db.orders.map (fun o =>
              if o.id = orderId then { order with status := newStatus } else o) })) ∧
    (validOrderStatuses.contains newStatus = false →
      updateOrderStatus db orderId newStatus = .error .badRequest) := by
  unfold updateOrderStatus
  rw [h]
  constructor <;> intro hv <;> simp [hv] <;> simpa using hv

/-- Witness for C7: the completed order of the C7 fixture is moved to
pending. -/
theorem c7_witness :
    updateOrderStatus c7Db 1 "pending" =
      .ok ({ c7Order with status := "pending" },
        { c7Db with orders := c7Db.orders.map (fun o =>
            if o.id = 1 then { c7Order with status := "pending" } else o) }) :=
  (c7_updateStatus_unrestricted c7Db 1 "pending" c7Order (by decide)).1 (by decide)

/-! ### Claim C10: createOrder never mutates the promotion store -/

/-- Claim C10: a successful `createOrder` leaves the promotion store
unchanged — the order-placement path reads the promotion and calls its
validity predicate but never writes it back, so no redemption is recorded. -/
theorem c10_promotions_frame (db : Db) (clientId : Nat) (body : OrderBody) (now : ℤ)
    (o : Order) (db2 : Db) (h : createOrder db clientId body now = .ok (o, db2)) :
    db2.promotions = db.promotions := by
  unfold createOrder at h
  cases hc : checkStock db.products body.products <;> rw [hc] at h
  · cases h
  · cases hp : applyPromoToTotal db.promotions body now <;> rw [hp] at h
    · cases h
    · simp only [Except.ok.injEq, Prod.mk.injEq] at h
      rw [← h.2]

/-- Witness for C10: a concrete successful order placement with an attached
valid promotion leaves the promotion list untouched. -/
theorem c10_witness :
    ∃ (o : Order) (db2 : Db),
      createOrder c1Db 3 c1Body 0 = .ok (o, db2) ∧ db2.promotions = c1Db.promotions := by
  refine ⟨_, _, rfl, c10_promotions_frame c1Db 3 c1Body 0 _ _ rfl⟩

/-! ### Claim C3: cancelOrder -/

/-- Folding per-item `$inc` stock updates over the product list adds, to each
product, the total quantity contributed by the line items that reference it. -/
theorem foldl_incStock (g : LineItem → ℤ) :
    ∀ (items : List LineItem) (ps : List Product),
      items.foldl (fun acc it => incStock acc it.productId (g it)) ps =
        ps.map (fun p =>
          { p with stock := p.stock +
              ((items.filter (fun it => it.productId == p.id)).map g).sum }) := by
  intro items
  induction items with
  | nil =>
    intro ps
    simp only [List.foldl_nil, List.filter_nil, List.map_nil, List.sum_nil, add_zero]
    exact (List.map_id ps).symm
  | cons it rest ih =>
    intro ps
    rw [List.foldl_cons, ih, incStock, List.map_map]
    apply List.map_congr_left
    intro p _
    simp only [Function.comp_apply]
    by_cases hid : p.id = it.productId
    · simp [hid, List.filter_cons, add_assoc]
    · have hid2 : (it.productId == p.id) = false := by
        simp [Ne.symm hid]
      simp [hid, List.filter_cons, hid2]

/-- Claim C3: `cancelOrder` rejects an order already completed or cancelled
with InvalidRequest (and changes nothing); any order in another status is set
to cancelled and each product regains the total quantity ordered across the
line items that reference it. -/
theorem c3_cancelOrder (db : Db) (orderId : Nat) (order : Order)
    (h : db.orders.find? (fun o => o.id == orderId) = some order) :
    ((order.status = "completed" ∨ order.status = "cancelled") →
      cancelOrder db orderId = .error .badRequest) ∧
    (order.status ≠ "completed" → order.status ≠ "cancelled" →
      cancelOrder db orderId =
        .ok ({ order with status := "cancelled" },
          { db with
            products := db.products.map (fun p =>
              { p with stock := p.stock +
                  ((order.products.filter (fun it => it.productId == p.id)).map
                    (fun it => (it.quantity : ℤ))).sum })
            orders := db.orders.map (fun o =>
              if o.id = orderId then { order with status := "cancelled" } else o) })) := by
  unfold cancelOrder
  rw [h]
  constructor
  · intro hterm
    simp [hterm]
  · intro h1 h2
    simp [not_or.mpr ⟨h1, h2⟩, foldl_incStock]

/-- Witness for C3: cancelling a pending one-item order restores the stock of
product 1 from 3 to 5 and both rejection hypotheses hold. -/
theorem c3_witness :
    cancelOrder c3Db 4 =
      .ok ({ id := 4, client := 1,
             products := [{ productId := 1, quantity := 2, price := 10 }],
             promotion := none, totalPrice := 20, status := "cancelled" },
        { products := [{ id := 1, stock := 5 }], promotions := [],
          orders := [{ id := 4, client := 1,
                       products := [{ productId := 1, quantity := 2, price := 10 }],
                       promotion := none, totalPrice := 20, status := "cancelled" }] }) := by
  rw [(c3_cancelOrder c3Db 4 c3Order (by decide)).2 (by decide) (by decide)]
  rfl

/-! ### Claim C5: acceptDelivery -/

/-- Claim C5: `acceptDelivery` fails with Conflict when the delivery is no
longer pending, assigning nothing; on a pending delivery it sets the status to
in_progress, assigns the courier on the delivery, and appends the delivery id
to the courier's assigned list. -/
theorem c5_acceptDelivery (db : DeliveryDb) (livreurId deliveryId : Nat)
    (livreur : Livreur) (delivery : Delivery)
    (hl : db.livreurs.find? (fun l => l.id == livreurId) = some livreur)
    (hd : db.deliveries.find? (fun d => d.id == deliveryId) = some delivery) :
    (delivery.status ≠ "pending" →
      acceptDelivery db livreurId deliveryId = .error .conflict) ∧
    (delivery.status = "pending" →
      acceptDelivery db livreurId deliveryId =
        .ok ({ delivery with status := "in_progress", livreur := some livreurId },
          { livreurs := db.livreurs.map (fun l =>
              if l.id = livreurId then
                { livreur with deliveriesAssigned := livreur.deliveriesAssigned ++ [deliveryId] }
              else l)
            deliveries := db.deliveries.map (fun d =>
              if d.id = deliveryId then
                { delivery with status := "in_progress", livreur := some livreurId }
              else d) })) := by
  unfold acceptDelivery
  rw [hl, hd]
  constructor <;> intro hs <;> simp [hs]

/-- Witness for C5: a courier accepts the only pending delivery; it becomes
in_progress, carries the courier id and lands in the assigned list. -/
theorem c5_witness :
    acceptDelivery c5Db 9 2 =
      .ok ({ id := 2, status := "in_progress", livreur := some 9 },
        { livreurs := [{ id := 9, deliveriesAssigned := [2] }],
          deliveries := [{ id := 2, status := "in_progress", livreur := some 9 }] }) := by
  rw [(c5_acceptDelivery c5Db 9 2 c5Livreur c5Delivery (by decide) (by decide)).2 (by decide)]
  rfl

/-! ### Claim C8: applyPromotion -/

/-- Reading a key just written into a stats map yields the written value. -/
theorem mapGet_mapSet (m : List (String × Nat)) (k : String) (v : Nat) :
    mapGet (mapSet m k v) k = v := by
  induction m with
  | nil => simp [mapGet, mapSet]
  | cons e rest ih =>
    by_cases he : e.1 = k
    · simp [mapSet, mapGet, he]
    · simp [mapSet, mapGet, he, ih]

/-- Claim C8 counterexample: running `applyPromotion` on October 11, 2026
produces the weekly stats key "2026-2" (year dash week-of-month, from
`Math.ceil(getDate() / 7)`), which is not of the claimed form `YYYY-Wn` for
any week number suffix: no string of the form "2026-W?" equals it. -/
theorem c8_counterexample :
    (c8Promo.applyPromotion c8Date 1 2).toOption.map (fun p => p.statsWeekly) =
      some [("2026-2", 1)] ∧
    (∀ s : String, "2026-2" ≠ "2026-W" ++ s) := by
  constructor
  · decide
  · intro s h
    have hlen := congrArg String.length h
    rw [String.length_append] at hlen
    have e1 : ("2026-2" : String).length = 6 := by decide
    have e2 : ("2026-W" : String).length = 6 := by decide
    rw [e1, e2] at hlen
    have hs : s.length = 0 := by omega
    have hd : s.data = [] := List.length_eq_zero.mp hs
    have hs2 : s = "" := by
      cases s with
      | mk data =>
        have hd2 : data = [] := hd
        subst hd2
        rfl
    subst hs2
    rw [String.append_empty] at h
    exact absurd h (by decide)

/-- Claim C8 (amended): `applyPromotion` is rejected whenever `isValid` is
false, changing nothing; when valid it increments `usedCount` by one, appends
one redemption record, and increments the weekly, monthly and yearly counters
keyed by `YYYY-n` (n the week-of-month, `ceil(day/7)`, with no W prefix),
`YYYY-M`, and `YYYY` for the current date. -/
theorem c8_applyPromotion (p : Promotion) (d : JsDate) (userId orderId : Nat) :
    (p.isValid d.epoch = false →
      p.applyPromotion d userId orderId = .error "Promotion not valid or expired.") ∧
    (p.isValid d.epoch = true →
      ∃ p2, p.applyPromotion d userId orderId = .ok p2 ∧
        p2.usedCount = p.usedCount + 1 ∧
        p2.redemptionHistory = p.redemptionHistory ++ [(userId, orderId)] ∧
        mapGet p2.statsWeekly (weekKey d) = mapGet p.statsWeekly (weekKey d) + 1 ∧
        mapGet p2.statsMonthly (monthKey d) = mapGet p.statsMonthly (monthKey d) + 1 ∧
        mapGet p2.statsYearly (yearKey d) = mapGet p.statsYearly (yearKey d) + 1 ∧
        weekKey d = toString d.year ++ "-" ++ toString ((d.day + 6) / 7) ∧
        monthKey d = toString d.year ++ "-" ++ toString (d.month + 1) ∧
        yearKey d = toString d.year) := by
  constructor
  · intro hv
    simp [Promotion.applyPromotion, hv]
  · intro hv
    have hrun : p.applyPromotion d userId orderId = .ok { p with
        usedCount := p.usedCount + 1
        redemptionHistory := p.redemptionHistory ++ [(userId, orderId)]
        statsWeekly := mapSet p.statsWeekly (weekKey d) (mapGet p.statsWeekly (weekKey d) + 1)
        statsMonthly := mapSet p.statsMonthly (monthKey d) (mapGet p.statsMonthly (monthKey d) + 1)
        statsYearly := mapSet p.statsYearly (yearKey d) (mapGet p.statsYearly (yearKey d) + 1) } := by
      simp [Promotion.applyPromotion, hv]
    exact ⟨_, hrun, rfl, rfl, mapGet_mapSet _ _ _, mapGet_mapSet _ _ _, mapGet_mapSet _ _ _,
      rfl, rfl, rfl⟩

/-- Witness for C8: applying the valid C8 promotion once on October 11, 2026
yields all the increments at the computed keys. -/
theorem c8_witness :
    ∃ p2, c8Promo.applyPromotion c8Date 1 2 = .ok p2 ∧
      p2.usedCount = c8Promo.usedCount + 1 ∧
      p2.redemptionHistory = c8Promo.redemptionHistory ++ [(1, 2)] ∧
      mapGet p2.statsWeekly (weekKey c8Date) = mapGet c8Promo.statsWeekly (weekKey c8Date) + 1 ∧
      mapGet p2.statsMonthly (monthKey c8Date) = mapGet c8Promo.statsMonthly (monthKey c8Date) + 1 ∧
      mapGet p2.statsYearly (yearKey c8Date) = mapGet c8Promo.statsYearly (yearKey c8Date) + 1 ∧
      weekKey c8Date = toString c8Date.year ++ "-" ++ toString ((c8Date.day + 6) / 7) ∧
      monthKey c8Date = toString c8Date.year ++ "-" ++ toString (c8Date.month + 1) ∧
      yearKey c8Date = toString c8Date.year :=
  (c8_applyPromotion c8Promo c8Date 1 2).2 (by decide)

/-! ### Claim C9: findBestPromotion -/

/-- Invariant of the selection loop when it returns a promotion: either the
incoming best survives because nothing beats the incoming maximum, or the
result splits the candidate list so that everything before it has a strictly
smaller discount and everything after it a smaller-or-equal one. -/
theorem findBestLoop_some (products : List LineItem) :
    ∀ (l : List Promotion) (best : Option Promotion) (m : ℚ) (p : Promotion),
      findBestLoop products l best m = some p →
      (best = some p ∧ ∀ q ∈ l, discountOf q products ≤ m) ∨
      (∃ l₁ l₂, l = l₁ ++ p :: l₂ ∧ m < discountOf p products ∧
        (∀ q ∈ l₁, discountOf q products < discountOf p products) ∧
        (∀ q ∈ l₂, discountOf q products ≤ discountOf p products)) := by
  intro l
  induction l with
  | nil =>
    intro best m p h
    left
    exact ⟨h, by simp⟩
  | cons promo rest ih =>
    intro best m p h
    by_cases hd : m < discountOf promo products
    · rw [findBestLoop, if_pos hd] at h
      rcases ih (some promo) (discountOf promo products) p h with
        ⟨hb, hall⟩ | ⟨l₁, l₂, heq, hm, hbefore, hafter⟩
      · injection hb with hb
        subst hb
        right
        exact ⟨[], rest, rfl, hd, by simp, hall⟩
      · right
        refine ⟨promo :: l₁, l₂, by rw [heq]; rfl, lt_trans hd hm, ?_, hafter⟩
        intro q hq
        rcases List.mem_cons.mp hq with rfl | hq
        · exact hm
        · exact hbefore q hq
    · rw [findBestLoop, if_neg hd] at h
      rcases ih best m p h with ⟨hb, hall⟩ | ⟨l₁, l₂, heq, hm, hbefore, hafter⟩
      · left
        refine ⟨hb, ?_⟩
        intro q hq
        rcases List.mem_cons.mp hq with rfl | hq
        · exact not_lt.mp hd
        · exact hall q hq
      · right
        refine ⟨promo :: l₁, l₂, by rw [heq]; rfl, hm, ?_, hafter⟩
        intro q hq
        rcases List.mem_cons.mp hq with rfl | hq
        · exact lt_of_le_of_lt (not_lt.mp hd) hm
        · exact hbefore q hq

/-- Invariant of the selection loop when it returns null: the incoming best
was already null and no candidate discount exceeds the incoming maximum. -/
theorem findBestLoop_none (products : List LineItem) :
    ∀ (l : List Promotion) (best : Option Promotion) (m : ℚ),
      findBestLoop products l best m = none →
      best = none ∧ ∀ q ∈ l, discountOf q products ≤ m := by
  intro l
  induction l with
  | nil =>
    intro best m h
    exact ⟨h, by simp⟩
  | cons promo rest ih =>
    intro best m h
    by_cases hd : m < discountOf promo products
    · rw [findBestLoop, if_pos hd] at h
      obtain ⟨hb, -⟩ := ih _ _ h
      cases hb
    · rw [findBestLoop, if_neg hd] at h
      obtain ⟨hb, hall⟩ := ih _ _ h
      refine ⟨hb, ?_⟩
      intro q hq
      rcases List.mem_cons.mp hq with rfl | hq
      · exact not_lt.mp hd
      · exact hall q hq

/-- Claim C9 (amended): over the active promotions intersecting the order,
`findBestPromotion` returns the first promotion achieving the maximum
discount, provided the maximum is strictly positive (ties keep the first one
encountered, since the comparison is strict); when no applicable promotion
yields a strictly positive discount it returns null instead of a
maximum-discount promotion, because the running maximum starts at 0. -/
theorem c9_findBestPromotion (promos : List Promotion) (products : List LineItem) :
    (∀ p, findBestPromotion promos products = some p →
      0 < discountOf p products ∧
      ∃ l₁ l₂, applicablePromotions promos products = l₁ ++ p :: l₂ ∧
        (∀ q ∈ l₁, discountOf q products < discountOf p products) ∧
        (∀ q ∈ l₂, discountOf q products ≤ discountOf p products)) ∧
    (findBestPromotion promos products = none →
      ∀ q ∈ applicablePromotions promos products, discountOf q products ≤ 0) := by
  constructor
  · intro p h
    rcases findBestLoop_some products _ none 0 p h with ⟨hb, -⟩ | ⟨l₁, l₂, heq, hm, hb, ha⟩
    · cases hb
    · exact ⟨hm, l₁, l₂, heq, hb, ha⟩
  · intro h
    exact (findBestLoop_none products _ none 0 h).2

/-- Claim C9 counterexample: an active percentage promotion applicable to the
order is the unique applicable promotion, its discount (the maximum) is 0
because the order subtotal is 0, and `findBestPromotion` returns null rather
than that maximum-discount promotion. -/
theorem c9_counterexample :
    applicablePromotions [c9PctPromo] [c9FreeItem] = [c9PctPromo] ∧
    discountOf c9PctPromo [c9FreeItem] = 0 ∧
    findBestPromotion [c9PctPromo] [c9FreeItem] = none := by
  refine ⟨rfl, ?_, ?_⟩
  · norm_num [discountOf, c9PctPromo, orderSubtotal, c9FreeItem]
  · have hd : discountOf c9PctPromo [c9FreeItem] = 0 := by
      norm_num [discountOf, c9PctPromo, orderSubtotal, c9FreeItem]
    rw [findBestPromotion]
    have happ : applicablePromotions [c9PctPromo] [c9FreeItem] = [c9PctPromo] := rfl
    rw [happ, findBestLoop, if_neg (by rw [hd]; exact lt_irrefl 0)]
    rfl

/-- Witness for C9: with one applicable fixed promotion of value 5 on a paid
order, `findBestPromotion` returns it, its discount is positive, and the
decomposition is the trivial one. -/
theorem c9_witness :
    0 < discountOf c9FixedPromo [c9PaidItem] ∧
    ∃ l₁ l₂, applicablePromotions [c9FixedPromo] [c9PaidItem] = l₁ ++ c9FixedPromo :: l₂ ∧
      (∀ q ∈ l₁, discountOf q [c9PaidItem] < discountOf c9FixedPromo [c9PaidItem]) ∧
      (∀ q ∈ l₂, discountOf q [c9PaidItem] ≤ discountOf c9FixedPromo [c9PaidItem]) :=
  (c9_findBestPromotion [c9FixedPromo] [c9PaidItem]).1 c9FixedPromo (by
    rw [findBestPromotion]
    have happ : applicablePromotions [c9FixedPromo] [c9PaidItem] = [c9FixedPromo] := rfl
    have hd : discountOf c9FixedPromo [c9PaidItem] = 5 := rfl
    rw [happ, findBestLoop, if_pos (by rw [hd]; norm_num)]
    rfl)

/-! ### Claim C6: haversine distance -/

/-- Two-sided Taylor window for the sine of a nonnegative argument below 1. -/
theorem sin_window (x lo hi : ℝ) (h0 : 0 ≤ lo) (hlo : lo ≤ x) (hhi : x ≤ hi)
    (hhi1 : hi ≤ 1) :
    lo - hi ^ 3 / 6 - hi ^ 4 * (5 / 96) ≤ Real.sin x ∧
      Real.sin x ≤ hi - lo ^ 3 / 6 + hi ^ 4 * (5 / 96) := by
  have hx0 : 0 ≤ x := le_trans h0 hlo
  have hax : |x| ≤ 1 := by
    rw [abs_of_nonneg hx0]
    exact le_trans hhi hhi1
  have hb := abs_le.mp (Real.sin_bound hax)
  rw [abs_of_nonneg hx0] at hb
  have hx3u : x ^ 3 ≤ hi ^ 3 := pow_le_pow_left₀ hx0 hhi 3
  have hx3l : lo ^ 3 ≤ x ^ 3 := pow_le_pow_left₀ h0 hlo 3
  have hx4 : x ^ 4 ≤ hi ^ 4 := pow_le_pow_left₀ hx0 hhi 4
  constructor <;> nlinarith [hb.1, hb.2]

/-- Rational window for half of a degree-to-radian conversion, from the
3.141592 < pi < 3.141593 bounds. -/
theorem toRad_half_window (c lo hi : ℝ) (hc : 0 ≤ c)
    (h1 : lo ≤ c * 3.141592 / 360) (h2 : c * 3.141593 / 360 ≤ hi) :
    lo ≤ toRad c / 2 ∧ toRad c / 2 ≤ hi := by
  have hp1 : (3.141592 : ℝ) < Real.pi := Real.pi_gt_d6
  have hp2 : Real.pi < (3.141593 : ℝ) := Real.pi_lt_d6
  unfold toRad
  constructor <;>
    nlinarith [mul_le_mul_of_nonneg_left hp1.le hc, mul_le_mul_of_nonneg_left hp2.le hc]

/-- Half-angle form of the cosine, used to bound the two latitude cosines. -/
theorem cos_eq_one_sub_two_sin_sq_half (x : ℝ) :
    Real.cos x = 1 - 2 * Real.sin (x / 2) ^ 2 := by
  have h1 := Real.cos_two_mul (x / 2)
  have h2 := Real.sin_sq_add_cos_sq (x / 2)
  have hx : 2 * (x / 2) = x := by ring
  rw [hx] at h1
  linarith

set_option maxHeartbeats 3200000 in
/-- Rigorous rational bounds for the haversine intermediate of the
Paris-Lyon pair. -/
theorem aParisLyon_bounds :
    (0.00094218 : ℝ) ≤ aParisLyon ∧ aParisLyon ≤ 0.00094548 := by
  have e1 : toRad (45.7640 - 48.8566) / 2 = -(toRad 3.0926 / 2) := by
    unfold toRad
    have hnum : ((45.7640 : ℝ) - 48.8566) = -3.0926 := by norm_num
    rw [hnum]
    ring
  have e2 : toRad (4.8357 - 2.3522) / 2 = toRad 2.4835 / 2 := by
    have hnum : ((4.8357 : ℝ) - 2.3522) = 2.4835 := by norm_num
    rw [hnum]
  have hw1 := toRad_half_window 3.0926 0.0269880 0.0269881
    (by norm_num) (by norm_num) (by norm_num)
  have hs1 := sin_window (toRad 3.0926 / 2) 0.0269880 0.0269881
    (by norm_num) hw1.1 hw1.2 (by norm_num)
  have hs1b : (0.026984 : ℝ) ≤ Real.sin (toRad 3.0926 / 2) ∧
      Real.sin (toRad 3.0926 / 2) ≤ 0.026985 :=
    ⟨le_trans (by norm_num) hs1.1, le_trans hs1.2 (by norm_num)⟩
  have hw2 := toRad_half_window 2.4835 0.0216725 0.0216727
    (by norm_num) (by norm_num) (by norm_num)
  have hs2 := sin_window (toRad 2.4835 / 2) 0.0216725 0.0216727
    (by norm_num) hw2.1 hw2.2 (by norm_num)
  have hs2b : (0.021670 : ℝ) ≤ Real.sin (toRad 2.4835 / 2) ∧
      Real.sin (toRad 2.4835 / 2) ≤ 0.021672 :=
    ⟨le_trans (by norm_num) hs2.1, le_trans hs2.2 (by norm_num)⟩
  have hw3 := toRad_half_window 48.8566 0.4263541 0.4263544
    (by norm_num) (by norm_num) (by norm_num)
  have hs3 := sin_window (toRad 48.8566 / 2) 0.4263541 0.4263544
    (by norm_num) hw3.1 hw3.2 (by norm_num)
  have hy3b : (0.41171 : ℝ) ≤ Real.sin (toRad 48.8566 / 2) ∧
      Real.sin (toRad 48.8566 / 2) ≤ 0.41516 :=
    ⟨le_trans (by norm_num) hs3.1, le_trans hs3.2 (by norm_num)⟩
  have hw4 := toRad_half_window 45.7640 0.3993661 0.3993663
    (by norm_num) (by norm_num) (by norm_num)
  have hs4 := sin_window (toRad 45.7640 / 2) 0.3993661 0.3993663
    (by norm_num) hw4.1 hw4.2 (by norm_num)
  have hy4b : (0.38742 : ℝ) ≤ Real.sin (toRad 45.7640 / 2) ∧
      Real.sin (toRad 45.7640 / 2) ≤ 0.39009 :=
    ⟨le_trans (by norm_num) hs4.1, le_trans hs4.2 (by norm_num)⟩
  have hc1 : (0.65528 : ℝ) ≤ Real.cos (toRad 48.8566) ∧
      Real.cos (toRad 48.8566) ≤ 0.66099 := by
    rw [cos_eq_one_sub_two_sin_sq_half]
    constructor <;> nlinarith [hy3b.1, hy3b.2]
  have hc2 : (0.69565 : ℝ) ≤ Real.cos (toRad 45.7640) ∧
      Real.cos (toRad 45.7640) ≤ 0.69982 := by
    rw [cos_eq_one_sub_two_sin_sq_half]
    constructor <;> nlinarith [hy4b.1, hy4b.2]
  unfold aParisLyon
  rw [e1, e2, Real.sin_neg]
  have hprod1 : (0.45584 : ℝ) ≤ Real.cos (toRad 48.8566) * Real.cos (toRad 45.7640) := by
    nlinarith [hc1.1, hc1.2, hc2.1, hc2.2]
  have hprod2 : Real.cos (toRad 48.8566) * Real.cos (toRad 45.7640) ≤ 0.46260 := by
    nlinarith [hc1.1, hc1.2, hc2.1, hc2.2]
  have hs1sq1 : (0.00072813 : ℝ) ≤
      Real.sin (toRad 3.0926 / 2) * Real.sin (toRad 3.0926 / 2) := by
    nlinarith [hs1b.1, hs1b.2]
  have hs1sq2 : Real.sin (toRad 3.0926 / 2) * Real.sin (toRad 3.0926 / 2) ≤ 0.00072820 := by
    nlinarith [hs1b.1, hs1b.2]
  have hs2sq1 : (0.00046958 : ℝ) ≤
      Real.sin (toRad 2.4835 / 2) * Real.sin (toRad 2.4835 / 2) := by
    nlinarith [hs2b.1, hs2b.2]
  have hs2sq2 : Real.sin (toRad 2.4835 / 2) * Real.sin (toRad 2.4835 / 2) ≤ 0.00046968 := by
    nlinarith [hs2b.1, hs2b.2]
  have hlow2 : (0.45584 : ℝ) * 0.00046958 ≤
      Real.cos (toRad 48.8566) * Real.cos (toRad 45.7640) *
        (Real.sin (toRad 2.4835 / 2) * Real.sin (toRad 2.4835 / 2)) :=
    mul_le_mul hprod1 hs2sq1 (by norm_num) (le_trans (by norm_num) hprod1)
  have hhigh2 : Real.cos (toRad 48.8566) * Real.cos (toRad 45.7640) *
        (Real.sin (toRad 2.4835 / 2) * Real.sin (toRad 2.4835 / 2)) ≤
      (0.46260 : ℝ) * 0.00046968 :=
    mul_le_mul hprod2 hs2sq2 (mul_self_nonneg _) (by norm_num)
  constructor
  · nlinarith [hlow2, hs1sq1]
  · nlinarith [hhigh2, hs1sq2]

/-- The source distance method and the spec haversine formula agree on every
pair of coordinates. -/
theorem calculateDistance_eq_haversineSpec (p q : Coords) :
    calculateDistance p q = haversineSpec p q := by
  have hA : Real.sin (toRad (q.latitude - p.latitude) / 2) *
        Real.sin (toRad (q.latitude - p.latitude) / 2) +
        Real.cos (toRad p.latitude) * Real.cos (toRad q.latitude) *
          Real.sin (toRad (q.longitude - p.longitude) / 2) *
          Real.sin (toRad (q.longitude - p.longitude) / 2) =
      Real.sin (toRad (q.latitude - p.latitude) / 2) ^ 2 +
        Real.cos (toRad p.latitude) * Real.cos (toRad q.latitude) *
          Real.sin (toRad (q.longitude - p.longitude) / 2) ^ 2 := by
    ring
  simp only [calculateDistance, haversineSpec]
  rw [hA]

/-- The computed Paris-Lyon distance lies within 2 km of 392 km. -/
theorem dist_paris_lyon_bound : |calculateDistance parisCoords lyonCoords - 392| ≤ 2 := by
  have hcalc : calculateDistance parisCoords lyonCoords =
      6371 * (2 * atan2 (Real.sqrt aParisLyon) (Real.sqrt (1 - aParisLyon))) := rfl
  obtain ⟨haL, haH⟩ := aParisLyon_bounds
  have ha0 : (0 : ℝ) ≤ aParisLyon := by linarith
  have ha1 : aParisLyon < 1 := by linarith
  have hpos : 0 < Real.sqrt (1 - aParisLyon) := Real.sqrt_pos.mpr (by linarith)
  have hatan : atan2 (Real.sqrt aParisLyon) (Real.sqrt (1 - aParisLyon)) =
      Real.arctan (Real.sqrt aParisLyon / Real.sqrt (1 - aParisLyon)) := by
    unfold atan2
    rw [if_pos hpos]
  have hlt1 : Real.sqrt aParisLyon < 1 := by
    have hq := Real.sqrt_lt_sqrt ha0 ha1
    rwa [Real.sqrt_one] at hq
  have harcsin : Real.arcsin (Real.sqrt aParisLyon) =
      Real.arctan (Real.sqrt aParisLyon / Real.sqrt (1 - Real.sqrt aParisLyon ^ 2)) :=
    Real.arcsin_eq_arctan
      (Set.mem_Ioo.mpr ⟨by nlinarith [Real.sqrt_nonneg aParisLyon], hlt1⟩)
  rw [Real.sq_sqrt ha0] at harcsin
  rw [hatan, ← harcsin] at hcalc
  have hpi := Real.pi_gt_d6
  have ht1a : -(Real.pi / 2) ≤ (195 : ℝ) / 6371 := by nlinarith
  have ht1b : (195 : ℝ) / 6371 ≤ Real.pi / 2 := by nlinarith
  have ht2a : -(Real.pi / 2) ≤ (197 : ℝ) / 6371 := by nlinarith
  have ht2b : (197 : ℝ) / 6371 ≤ Real.pi / 2 := by nlinarith
  have hlow : (195 : ℝ) / 6371 ≤ Real.arcsin (Real.sqrt aParisLyon) := by
    have hsin_le : Real.sin ((195 : ℝ) / 6371) ≤ Real.sqrt aParisLyon := by
      have h1 : Real.sin ((195 : ℝ) / 6371) < (195 : ℝ) / 6371 := Real.sin_lt (by norm_num)
      have h2 : (195 : ℝ) / 6371 ≤ Real.sqrt aParisLyon :=
        (Real.le_sqrt (by norm_num) ha0).mpr (by nlinarith)
      linarith
    have hmono := Real.monotone_arcsin hsin_le
    rwa [Real.arcsin_sin ht1a ht1b] at hmono
  have hhigh : Real.arcsin (Real.sqrt aParisLyon) ≤ (197 : ℝ) / 6371 := by
    have hsin_ge : Real.sqrt aParisLyon ≤ Real.sin ((197 : ℝ) / 6371) := by
      have h1 := Real.sin_gt_sub_cube (show (0 : ℝ) < 197 / 6371 by norm_num)
        (show (197 : ℝ) / 6371 ≤ 1 by norm_num)
      have h2 : Real.sqrt aParisLyon ≤ (197 : ℝ) / 6371 - ((197 : ℝ) / 6371) ^ 3 / 4 := by
        have hle : aParisLyon ≤ ((197 : ℝ) / 6371 - ((197 : ℝ) / 6371) ^ 3 / 4) ^ 2 := by
          nlinarith
        have hq := Real.sqrt_le_sqrt hle
        rwa [Real.sqrt_sq (by norm_num)] at hq
      linarith
    have hmono := Real.monotone_arcsin hsin_ge
    rwa [Real.arcsin_sin ht2a ht2b] at hmono
  rw [hcalc, abs_le]
  constructor <;> nlinarith [hlow, hhigh]

/-- Claim C6: the delivery distance computation equals the haversine formula
of the spec on every pair of coordinate points, and the distance between
Paris (48.8566, 2.3522) and Lyon (45.7640, 4.8357) is within 2 km of
392 km. -/
theorem c6_haversine :
    (∀ p q : Coords, calculateDistance p q = haversineSpec p q) ∧
      |calculateDistance parisCoords lyonCoords - 392| ≤ 2 :=
  ⟨calculateDistance_eq_haversineSpec, dist_paris_lyon_bound⟩

end SmartSugu
